import Mathlib

/-!
Shallow embedding of the Flight-MCP-Client query-processing core
(`src/client/processor.py`, `src/client/connection.py`, `src/client/mcp_client.py`,
`src/api/routes.py`) and proofs of the specification claims about it.

Dynamic JSON payloads (tool arguments, tool result payloads, input schemas) are
modelled as opaque strings: the code never inspects them, it only threads them
through, so any carrier type is faithful.  Python exceptions are modelled as the
`Except.error` branch of `Except String α`, carrying `str(e)`.  The language
model (Anthropic gateway) and the remote MCP server are external collaborators:
their behaviour enters the embedding as oracle data — a script of model
responses and response functions for the channel operations.
-/

namespace FlightMCP

/-- A content block of a model response (`response.content` items in
`processor.py`): a text block or a tool-use block with id, name and input. -/
inductive ContentBlock where
  | text (text : String)
  | tool_use (id : String) (name : String) (input : String)
deriving Repr, DecidableEq

/-- An entry of `result["tool_calls"]`: the dict with keys id, name, args built
at processor.py lines 77-81.  The pending `tool_calls` list of a turn carries
the same three fields of each tool_use block, so it reuses this shape. -/
structure ToolCallEntry where
  id : String
  name : String
  args : String
deriving Repr, DecidableEq

/-- Outcome stored in a `result["tool_results"]` entry: either the successful
payload (`result_data.content`) or the exception message (`str(e)`). -/
inductive ToolOutcome where
  | success (result : String)
  | error (err : String)
deriving Repr, DecidableEq

/-- An entry of `result["tool_results"]` (processor.py lines 109-115 and
135-141): tool_use_id, name, args, and the success payload or error message. -/
structure ToolResultEntry where
  tool_use_id : String
  name : String
  args : String
  outcome : ToolOutcome
deriving Repr, DecidableEq

/-- The `status` field of a tool_results entry. -/
def ToolResultEntry.status (e : ToolResultEntry) : String :=
  match e.outcome with
  | .success _ => "success"
  | .error _ => "error"

/-- Content of a conversation message: the initial user query is a plain string
(processor.py line 39); an assistant message carries the list of content blocks
received from the model (line 89/96); a tool-result user message carries one
tool_result block with its tool_use_id and string content (lines 119-128,
145-154). -/
inductive MessageContent where
  | plain (s : String)
  | blocks (bs : List ContentBlock)
  | toolResult (tool_use_id : String) (content : String)
deriving Repr, DecidableEq

/-- A conversation message: role ("user" or "assistant") and content. -/
structure ConversationMessage where
  role : String
  content : MessageContent
deriving Repr, DecidableEq

/-- The accumulated result of `MessageProcessor.process_query` (processor.py
lines 44-48): trimmed non-empty text segments, tool calls, tool results. -/
structure QueryResult where
  text : List String
  tool_calls : List ToolCallEntry
  tool_results : List ToolResultEntry
deriving Repr, DecidableEq

/-- The tool channel as the processor sees it: `connection.call_tool name args`
either returns the payload (`result_data.content`) or raises with a message. -/
def ToolChannel : Type := String → String → Except String String

/-- One pass over `response.content` (processor.py lines 63-81), threading the
accumulated result left to right.  Returns the updated result, the
`assistant_message_content` list and the pending `tool_calls` list of the turn.
Text blocks are trimmed; non-empty trims go to `result.text`; the original
(untrimmed) block goes to `assistant_message_content`.  Tool-use blocks go to
both `assistant_message_content` and the pending list, and their
id/name/input triple is appended to `result.tool_calls`. -/
def processResponseContent : List ContentBlock → QueryResult →
    QueryResult × List ContentBlock × List ToolCallEntry
  | [], result => (result, [], [])
  | .text t :: rest, result =>
      let trimmed := t.trim
      let result1 :=
        if trimmed = "" then result
        else { result with text := result.text ++ [trimmed] }
      let out := processResponseContent rest result1
      (out.1, .text t :: out.2.1, out.2.2)
  | .tool_use id name input :: rest, result =>
      let result1 :=
        { result with tool_calls := result.tool_calls ++ [⟨id, name, input⟩] }
      let out := processResponseContent rest result1
      (out.1, .tool_use id name input :: out.2.1, ⟨id, name, input⟩ :: out.2.2)

/-- Sequential execution of the pending tool calls of one turn (processor.py
lines 100-154), threading the result and the conversation.  A successful call
appends a success entry and a user tool_result message with the payload; a
raising call is caught, appends an error entry and a user tool_result message
with content "Error: " ++ message, and execution continues with the remaining
calls. -/
def executeToolCalls (channel : ToolChannel) :
    List ToolCallEntry → QueryResult → List ConversationMessage →
    QueryResult × List ConversationMessage
  | [], result, messages => (result, messages)
  | t :: rest, result, messages =>
      match channel t.name t.args with
      | .ok content =>
          executeToolCalls channel rest
            { result with tool_results :=
                result.tool_results ++ [⟨t.id, t.name, t.args, .success content⟩] }
            (messages ++ [⟨"user", .toolResult t.id content⟩])
      | .error e =>
          executeToolCalls channel rest
            { result with tool_results :=
                result.tool_results ++ [⟨t.id, t.name, t.args, .error e⟩] }
            (messages ++ [⟨"user", .toolResult t.id ("Error: " ++ e)⟩])

/-- State of the processing loop: the accumulated result and the conversation. -/
def LoopState : Type := QueryResult × List ConversationMessage

/-- One iteration of the `while True` body of processor.py lines 51-154 for a
given model response content list.  Returns (done, result, messages): `done`
is true when the turn had no tool calls (the `break` at line 91).  On `break`
the assistant message is appended only when `assistant_message_content` is
non-empty (the guard at line 86); otherwise the assistant message is appended
unconditionally (line 94) and the pending calls are executed. -/
def loopStep (channel : ToolChannel) (st : LoopState)
    (response : List ContentBlock) : Bool × LoopState :=
  let out := processResponseContent response st.1
  let result1 := out.1
  let amc := out.2.1
  let toolCalls := out.2.2
  if toolCalls.isEmpty then
    (true, result1,
      if amc.isEmpty then st.2 else st.2 ++ [⟨"assistant", .blocks amc⟩])
  else
    let messages1 := st.2 ++ [⟨"assistant", .blocks amc⟩]
    let out2 := executeToolCalls channel toolCalls result1 messages1
    (false, out2.1, out2.2)

/-- Outcome of running the loop against a finite script of model-call
outcomes: `done` — the loop broke and `process_query` returns the result;
`raised` — a model call raised and the exception propagates out of the
processor; `running` — the script is exhausted but the loop has not
terminated (every scripted response requested tools), i.e. the loop would
keep going. -/
inductive LoopOutcome where
  | done (result : QueryResult) (messages : List ConversationMessage)
  | raised (e : String)
  | running (result : QueryResult) (messages : List ConversationMessage)
deriving Repr, DecidableEq

/-- The `while True` loop of `MessageProcessor.process_query`, driven by a
finite script of model-call outcomes (each `anthropic.messages.create` call
consumes the next entry; an `Except.error` entry is the model call raising). -/
def processLoop (channel : ToolChannel) :
    List (Except String (List ContentBlock)) → LoopState → LoopOutcome
  | [], st => .running st.1 st.2
  | .error e :: _, _ => .raised e
  | .ok response :: rest, st =>
      match loopStep channel st response with
      | (true, st1) => .done st1.1 st1.2
      | (false, st1) => processLoop channel rest st1

/-- `MessageProcessor.process_query` (processor.py lines 25-157): initializes
the conversation with the user query and the empty result, then runs the loop. -/
def MessageProcessor.process_query (channel : ToolChannel)
    (responses : List (Except String (List ContentBlock)))
    (query : String) : LoopOutcome :=
  processLoop channel responses (⟨[], [], []⟩, [⟨"user", .plain query⟩])

/-- A tool descriptor as cached by the facade (mcp_client.py lines 49-53):
name, description, input_schema. -/
structure ToolDescriptor where
  name : String
  description : String
  input_schema : String
deriving Repr, DecidableEq

/-- The external world the client interacts with: the SSE transport opening
(connect_sse body up to `initialize`), the remote list_tools and call_tool
responses, the scripted model-call outcomes, and the configured SSE endpoint.
Each `Except.error` branch is the corresponding Python call raising. -/
structure Env where
  transport : Option String → Except String Unit
  remote_list_tools : Except String (List ToolDescriptor)
  remote_call_tool : String → String → Except String String
  responses : List (Except String (List ContentBlock))
  sse_endpoint : Option String

/-- `ServerConnection.connect_sse` (connection.py lines 21-47): on transport or
initialize failure the exception is caught, `cleanup` clears the session and a
`ConnectionError` with message "Failed to connect to SSE server: " ++ e is
raised; on success the session is set and True is returned.  The returned pair
is (new session flag, returned-or-raised value). -/
def ServerConnection.connect_sse (env : Env) (endpoint : Option String) :
    Bool × Except String Bool :=
  match env.transport endpoint with
  | .ok _ => (true, .ok true)
  | .error e => (false, .error ("Failed to connect to SSE server: " ++ e))

/-- `ServerConnection.list_tools` (connection.py lines 49-66): raises
ConnectionError when no session; otherwise performs the remote fetch (the
second component counts remote list_tools invocations: 1 when the fetch
happens, 0 when the guard raises first). -/
def ServerConnection.list_tools (env : Env) (session : Bool) :
    Except String (List ToolDescriptor) × Nat :=
  if session then (env.remote_list_tools, 1)
  else (.error "Not connected to an MCP server", 0)

/-- `ServerConnection.call_tool` (connection.py lines 68-91): raises
ConnectionError when no session; otherwise delegates to the remote call,
re-raising any failure. -/
def ServerConnection.call_tool (env : Env) (session : Bool) :
    ToolChannel := fun name args =>
  if session then env.remote_call_tool name args
  else .error "Not connected to an MCP server"

/-- State of an `MCPClient` instance: whether `self.connection.session` is set,
the cached `self.available_tools`, and `self.connection_url`. -/
structure ClientState where
  session : Bool
  available_tools : List ToolDescriptor
  connection_url : Option String
deriving Repr, DecidableEq

/-- The try-block of `MCPClient.connect` (mcp_client.py lines 42-56): store the
url, open the channel, and on success fetch and map the tool catalog.  Returns
the client state as mutated so far, the returned-or-raised value, and the
number of remote list_tools fetches performed. -/
def MCPClient.connectBody (env : Env) (st : ClientState)
    (url : Option String) : ClientState × Except String Bool × Nat :=
  let st1 := { st with connection_url := url }
  match ServerConnection.connect_sse env url with
  | (sess, .error e) => ({ st1 with session := sess }, .error e, 0)
  | (sess, .ok _) =>
      let st2 := { st1 with session := sess }
      match ServerConnection.list_tools env st2.session with
      | (.error e, n) => (st2, .error e, n)
      | (.ok tools, n) =>
          ({ st2 with available_tools :=
              tools.map fun t => ⟨t.name, t.description, t.input_schema⟩ },
           .ok true, n)

/-- `MCPClient.connect` (mcp_client.py lines 33-60): the try-block, with every
exception caught and turned into a False return (lines 58-60).  Returns the
new client state, the boolean result and the remote fetch count. -/
def MCPClient.connect (env : Env) (st : ClientState)
    (url : Option String) : ClientState × Bool × Nat :=
  match MCPClient.connectBody env st url with
  | (st1, .ok b, n) => (st1, b, n)
  | (st1, .error _, n) => (st1, false, n)

/-- Result dict of `MCPClient.process_query` and `get_available_tools`: either
the success wrapper or the error wrapper with the exception message. -/
inductive FacadeResult where
  | success (response : QueryResult)
  | failure (error : String)
deriving Repr, DecidableEq

/-- The `status` field of a facade result dict. -/
def FacadeResult.status : FacadeResult → String
  | .success _ => "success"
  | .failure _ => "error"

/-- The client state after the lazy-reconnect step at mcp_client.py lines
72-73 and 94-95: when no session is present, `connect(self.connection_url)`
is attempted (its boolean result is not checked). -/
def MCPClient.ensureConnected (env : Env) (st : ClientState) : ClientState :=
  if st.session then st
  else (MCPClient.connect env st st.connection_url).1

/-- The processor invocation made by `MCPClient.process_query` (line 75): the
processor runs against the connection in its current (post-reconnect) state. -/
def MCPClient.processorOutcome (env : Env) (st : ClientState)
    (query : String) : LoopOutcome :=
  MessageProcessor.process_query
    (ServerConnection.call_tool env (MCPClient.ensureConnected env st).session)
    env.responses query

/-- `MCPClient.process_query` (mcp_client.py lines 62-85): lazily reconnect,
run the processor, wrap its return in the success dict; any exception is
caught and turned into the error dict.  `none` is the case where the
processor never returns (script exhausted with the loop still going). -/
def MCPClient.process_query (env : Env) (st : ClientState)
    (query : String) : ClientState × Option FacadeResult :=
  let st1 := MCPClient.ensureConnected env st
  match MCPClient.processorOutcome env st query with
  | .done result _ => (st1, some (.success result))
  | .raised e => (st1, some (.failure e))
  | .running _ _ => (st1, none)

/-- Result dict of `MCPClient.get_available_tools`: success wrapper holding
the cached catalog, or the error wrapper. -/
inductive ToolsResult where
  | success (tools : List ToolDescriptor)
  | failure (error : String)
deriving Repr, DecidableEq

/-- `MCPClient.get_available_tools` (mcp_client.py lines 87-106): lazily
reconnect when no session, then return the cached `self.available_tools`
(no remote fetch on the cached path).  The last component counts remote
list_tools fetches performed during the call. -/
def MCPClient.get_available_tools (env : Env) (st : ClientState) :
    ClientState × ToolsResult × Nat :=
  if st.session then (st, .success st.available_tools, 0)
  else
    let out := MCPClient.connect env st st.connection_url
    (out.1, .success out.1.available_tools, out.2.2)

/-- Truthiness of the `connection_url` argument in Python
(`if not connection_url`): None and the empty string are falsy. -/
def falsyUrl : Option String → Bool
  | none => true
  | some s => s.isEmpty

/-- `get_client_instance` (mcp_client.py lines 116-135): under the lock, when
no instance exists a missing url raises ValueError, otherwise a fresh client
is constructed and connected (connect failures are swallowed by `connect`);
when an instance exists it is returned untouched.  The pair is (new global
`_client_instance`, returned instance). -/
def get_client_instance (env : Env) (g : Option ClientState)
    (url : Option String) : Except String (Option ClientState × ClientState) :=
  match g with
  | some inst => .ok (some inst, inst)
  | none =>
      if falsyUrl url then
        .error "Connection URL is required for initial client creation"
      else
        let fresh : ClientState := ⟨false, [], none⟩
        let out := MCPClient.connect env fresh url
        .ok (some out.1, out.1)

/-- JSON values as produced by `jsonify` in routes.py (only the shapes this
code emits: strings, arrays and objects with ordered fields). -/
inductive Json where
  | str (s : String)
  | arr (elems : List Json)
  | obj (fields : List (String × Json))
deriving Repr

/-- Keys of a JSON object, in order (empty for non-objects). -/
def Json.topKeys : Json → List String
  | .obj fs => fs.map Prod.fst
  | _ => []

/-- Field lookup in a JSON object. -/
def Json.field (k : String) : Json → Option Json
  | .obj fs => fs.lookup k
  | _ => none

/-- Serialization of a tool_calls entry (the dict of processor.py 77-81). -/
def ToolCallEntry.toJson (t : ToolCallEntry) : Json :=
  .obj [("id", .str t.id), ("name", .str t.name), ("args", .str t.args)]

/-- Serialization of a tool_results entry, with the key order of
processor.py 109-115 (success) and 135-141 (error). -/
def ToolResultEntry.toJson (t : ToolResultEntry) : Json :=
  match t.outcome with
  | .success c =>
      .obj [("tool_use_id", .str t.tool_use_id), ("name", .str t.name),
            ("args", .str t.args), ("result", .str c), ("status", .str "success")]
  | .error e =>
      .obj [("tool_use_id", .str t.tool_use_id), ("name", .str t.name),
            ("args", .str t.args), ("error", .str e), ("status", .str "error")]

/-- Serialization of the processor result dict (processor.py 44-48). -/
def QueryResult.toJson (r : QueryResult) : Json :=
  .obj [("text", .arr (r.text.map .str)),
        ("tool_calls", .arr (r.tool_calls.map ToolCallEntry.toJson)),
        ("tool_results", .arr (r.tool_results.map ToolResultEntry.toJson))]

/-- Serialization of the dict returned by `MCPClient.process_query`
(mcp_client.py 76-79 and 82-85). -/
def FacadeResult.toJson : FacadeResult → Json
  | .success r => .obj [("status", .str "success"), ("response", r.toJson)]
  | .failure e => .obj [("status", .str "error"), ("error", .str e)]

/-- The `error_response` helper of routes.py lines 41-45. -/
def error_response (message : String) : Json :=
  .obj [("status", .str "error"), ("error", .str message)]

/-- A POST /chat request as the route sees it: whether the content type is
JSON, and the string fields of the body. -/
structure ChatRequest where
  is_json : Bool
  body : List (String × String)

/-- `validate_json(required_fields=["prompt"])` (routes.py lines 29-38)
specialized to the /chat route: raises ValueError on a non-JSON content type
or a missing prompt field, otherwise returns the body. -/
def validate_json_prompt (req : ChatRequest) :
    Except String (List (String × String)) :=
  if !req.is_json then .error "Content-Type must be application/json"
  else if (req.body.lookup "prompt").isNone then
    .error "Missing fields in request body: prompt"
  else .ok req.body

/-- `process_chat` (routes.py lines 56-79): validate the body, obtain the
singleton client, process the prompt, and wrap the facade's return dict as
the "data" field of a success envelope; a ValueError gives 400 with its
message.  Returns the new global instance, the HTTP status code and the
response body; `none` when the underlying query processing never returns. -/
def process_chat (env : Env) (g : Option ClientState) (req : ChatRequest) :
    Option (Option ClientState × Nat × Json) :=
  match validate_json_prompt req with
  | .error e => some (g, 400, error_response e)
  | .ok body =>
      match body.lookup "prompt" with
      | none => some (g, 400, error_response "Missing fields in request body: prompt")
      | some message =>
          match get_client_instance env g env.sse_endpoint with
          | .error e => some (g, 400, error_response e)
          | .ok (g1, inst) =>
              match MCPClient.process_query env inst message with
              | (st1, some fr) =>
                  some (g1.map fun _ => st1, 200,
                    .obj [("status", .str "success"), ("data", fr.toJson)])
              | (_, none) => none

/-- The /chat success body as the specification describes it: the value of
"data" is the QueryResult itself.  Stated from the spec sentence for POST
/chat, to be compared with what `process_chat` actually emits. -/
def specChatSuccessBody (r : QueryResult) : Json :=
  .obj [("status", .str "success"), ("data", r.toJson)]

/-! ## Derived observations on the loop -/

/-- The id/name/input triples of the tool_use blocks of a response, in order:
this is the pending `tool_calls` list a turn produces. -/
def toolUses : List ContentBlock → List ToolCallEntry
  | [] => []
  | .text _ :: rest => toolUses rest
  | .tool_use id name input :: rest => ⟨id, name, input⟩ :: toolUses rest

/-- The trimmed non-empty text segments of a response, in order: what a turn
appends to `result.text`. -/
def trimmedTexts : List ContentBlock → List String
  | [] => []
  | .text t :: rest =>
      if t.trim = "" then trimmedTexts rest else t.trim :: trimmedTexts rest
  | .tool_use _ _ _ :: rest => trimmedTexts rest

/-- The tool_results entry produced by executing one pending call against the
channel. -/
def resultEntry (channel : ToolChannel) (t : ToolCallEntry) : ToolResultEntry :=
  match channel t.name t.args with
  | .ok c => ⟨t.id, t.name, t.args, .success c⟩
  | .error e => ⟨t.id, t.name, t.args, .error e⟩

/-- The user tool_result conversation message produced by executing one
pending call against the channel. -/
def toolMsg (channel : ToolChannel) (t : ToolCallEntry) : ConversationMessage :=
  match channel t.name t.args with
  | .ok c => ⟨"user", .toolResult t.id c⟩
  | .error e => ⟨"user", .toolResult t.id ("Error: " ++ e)⟩

/-- Number of assistant-role messages in a conversation. -/
def countAssistant (messages : List ConversationMessage) : Nat :=
  (messages.filter fun m => m.role = "assistant").length

/-- Whether a loop outcome is the still-running case. -/
def LoopOutcome.isRunning : LoopOutcome → Bool
  | .running _ _ => true
  | _ => false

/-- A channel whose every call raises ConnectionError, as
`ServerConnection.call_tool` does with no session. -/
def chanNone : ToolChannel := fun _ _ => .error "Not connected to an MCP server"

/-- Concrete environment whose SSE transport is unreachable: the model first
requests one tool, then answers with no content. -/
def envDown : Env :=
  ⟨fun _ => .error "connection refused", .ok [], fun _ _ => .ok "unused",
   [.ok [.tool_use "t1" "search_flights" "src=JFK"], .ok []],
   some "http://server/sse"⟩

/-- Concrete client state with no session and a stored endpoint. -/
def stDisconnected : ClientState := ⟨false, [], some "http://server/sse"⟩

/-- Concrete environment whose model call raises. -/
def envGatewayDown : Env :=
  ⟨fun _ => .ok (), .ok [], fun _ _ => .ok "r", [.error "rate limited"], none⟩

/-- Concrete connected client state with an empty catalog. -/
def stConnected : ClientState := ⟨true, [], none⟩

/-- Concrete environment for a /chat run: connected transport, model answers
immediately with no content blocks. -/
def envChat : Env :=
  ⟨fun _ => .ok (), .ok [], fun _ _ => .ok "r", [.ok []],
   some "http://server/sse"⟩

/-- Concrete connected client state for the /chat run. -/
def stChat : ClientState := ⟨true, [], some "http://server/sse"⟩

/-- Concrete connected client state with a one-tool catalog. -/
def stCatalog : ClientState :=
  ⟨true, [⟨"search_flights", "Search flights", "schema"⟩], some "http://server/sse"⟩

theorem resultEntry_tool_use_id (channel : ToolChannel) (t : ToolCallEntry) :
    (resultEntry channel t).tool_use_id = t.id := by
  cases hc : channel t.name t.args <;> simp [resultEntry, hc]

theorem toolMsg_role (channel : ToolChannel) (t : ToolCallEntry) :
    (toolMsg channel t).role = "user" := by
  cases hc : channel t.name t.args <;> simp [toolMsg, hc]

theorem processResponseContent_spec (response : List ContentBlock)
    (result : QueryResult) :
    processResponseContent response result =
      ({ result with
          text := result.text ++ trimmedTexts response,
          tool_calls := result.tool_calls ++ toolUses response },
       response, toolUses response) := by
  induction response generalizing result with
  | nil => simp [processResponseContent, trimmedTexts, toolUses]
  | cons c rest ih =>
      cases c with
      | text t =>
          by_cases h : t.trim = "" <;>
            simp [processResponseContent, trimmedTexts, toolUses, h, ih]
      | tool_use id name input =>
          simp [processResponseContent, trimmedTexts, toolUses, ih,
            List.append_assoc]

theorem executeToolCalls_spec (channel : ToolChannel)
    (pending : List ToolCallEntry) (result : QueryResult)
    (messages : List ConversationMessage) :
    executeToolCalls channel pending result messages =
      ({ result with tool_results :=
          result.tool_results ++ pending.map (resultEntry channel) },
       messages ++ pending.map (toolMsg channel)) := by
  induction pending generalizing result messages with
  | nil => simp [executeToolCalls]
  | cons t rest ih =>
      cases hc : channel t.name t.args with
      | ok c =>
          simp [executeToolCalls, hc, ih, resultEntry, toolMsg,
            List.append_assoc]
      | error e =>
          simp [executeToolCalls, hc, ih, resultEntry, toolMsg,
            List.append_assoc]

theorem loopStep_eq (channel : ToolChannel) (st : LoopState)
    (response : List ContentBlock) :
    loopStep channel st response =
      if toolUses response = [] then
        (true,
         { st.1 with text := st.1.text ++ trimmedTexts response },
         if response = [] then st.2
         else st.2 ++ [⟨"assistant", .blocks response⟩])
      else
        (false,
         { st.1 with
            text := st.1.text ++ trimmedTexts response,
            tool_calls := st.1.tool_calls ++ toolUses response,
            tool_results := st.1.tool_results ++
              (toolUses response).map (resultEntry channel) },
         (st.2 ++ [⟨"assistant", .blocks response⟩]) ++
           (toolUses response).map (toolMsg channel)) := by
  unfold loopStep
  rw [processResponseContent_spec]
  by_cases h : toolUses response = []
  · simp [h, executeToolCalls_spec, List.isEmpty_iff]
  · simp [h, executeToolCalls_spec, List.isEmpty_iff]

theorem countAssistant_append (l1 l2 : List ConversationMessage) :
    countAssistant (l1 ++ l2) = countAssistant l1 + countAssistant l2 := by
  simp [countAssistant, List.filter_append]

theorem countAssistant_toolMsgs (channel : ToolChannel)
    (l : List ToolCallEntry) :
    countAssistant (l.map (toolMsg channel)) = 0 := by
  simp [countAssistant, toolMsg_role]

theorem countAssistant_assistant_singleton (c : MessageContent) :
    countAssistant [⟨"assistant", c⟩] = 1 := rfl

theorem countAssistant_assistant_cons (c : MessageContent)
    (l : List ConversationMessage) :
    countAssistant (⟨"assistant", c⟩ :: l) = countAssistant l + 1 := by
  simp [countAssistant, List.filter_cons]

/-- With no session, every call_tool invocation raises the ConnectionError
message, so `resultEntry` records it as an error outcome. -/
theorem resultEntry_no_session (env : Env) (t : ToolCallEntry) :
    resultEntry (ServerConnection.call_tool env false) t =
      ⟨t.id, t.name, t.args, .error "Not connected to an MCP server"⟩ := rfl

/-! ## Claim theorems -/

/-- C1: in any single model turn of the query-processing loop, the tool_use
blocks of the response (in emission order, `toolUses response`) produce exactly
that list of new `tool_calls` entries with their id/name/args, and sequential
execution appends exactly one `tool_results` entry per block in the same
order, the k-th entry carrying the id of the k-th block as its tool_use_id. -/
theorem toolCalls_and_toolResults_match_turn (channel : ToolChannel)
    (st : LoopState) (response : List ContentBlock) :
    ((loopStep channel st response).2.1.tool_calls =
        st.1.tool_calls ++ toolUses response) ∧
    ((loopStep channel st response).2.1.tool_results =
        st.1.tool_results ++ (toolUses response).map (resultEntry channel)) ∧
    (((toolUses response).map (resultEntry channel)).map
        ToolResultEntry.tool_use_id =
      (toolUses response).map ToolCallEntry.id) := by
  rw [loopStep_eq]
  by_cases h : toolUses response = []
  · simp [h]
  · simp [h, List.map_map, Function.comp, resultEntry_tool_use_id]

/-- C2: when a pending call of a turn raises with message e, the loop records
a tool_results entry with status "error" carrying the message, appends a user
message with one tool_result block whose content is "Error: " ++ e and the
matching tool_use_id, still executes the remaining pending calls of the turn
(the entries for `post` are present), and does not terminate: the loop
proceeds to the next model call with the conversation including the error
block. -/
theorem toolFailure_recorded_and_loop_continues (channel : ToolChannel)
    (st : LoopState) (response : List ContentBlock)
    (rest : List (Except String (List ContentBlock)))
    (pre post : List ToolCallEntry) (t : ToolCallEntry) (e : String)
    (hsplit : toolUses response = pre ++ t :: post)
    (hfail : channel t.name t.args = .error e) :
    (loopStep channel st response).1 = false ∧
    (loopStep channel st response).2.1.tool_results =
      st.1.tool_results ++ pre.map (resultEntry channel) ++
        [⟨t.id, t.name, t.args, .error e⟩] ++ post.map (resultEntry channel) ∧
    ToolResultEntry.status ⟨t.id, t.name, t.args, .error e⟩ = "error" ∧
    (loopStep channel st response).2.2 =
      st.2 ++ [⟨"assistant", .blocks response⟩] ++ pre.map (toolMsg channel) ++
        [⟨"user", .toolResult t.id ("Error: " ++ e)⟩] ++
        post.map (toolMsg channel) ∧
    processLoop channel (.ok response :: rest) st =
      processLoop channel rest (loopStep channel st response).2 := by
  have hne : toolUses response ≠ [] := by simp [hsplit]
  have hstep := loopStep_eq channel st response
  rw [if_neg hne] at hstep
  refine ⟨?_, ?_, rfl, ?_, ?_⟩
  · rw [hstep]
  · rw [hstep]
    simp [hsplit, resultEntry, hfail, List.append_assoc]
  · rw [hstep]
    simp [hsplit, toolMsg, hfail, List.append_assoc]
  · simp [processLoop, hstep]

/-- Witness for C2 at a concrete failing call. -/
theorem toolFailure_witness :
    (loopStep chanNone (⟨[], [], []⟩, [⟨"user", .plain "q"⟩])
        [.tool_use "t1" "get_flights" "a"]).1 = false ∧
    (loopStep chanNone (⟨[], [], []⟩, [⟨"user", .plain "q"⟩])
        [.tool_use "t1" "get_flights" "a"]).2.1.tool_results =
      [⟨"t1", "get_flights", "a", .error "Not connected to an MCP server"⟩] :=
  have h := toolFailure_recorded_and_loop_continues chanNone
    (⟨[], [], []⟩, [⟨"user", .plain "q"⟩]) [.tool_use "t1" "get_flights" "a"]
    [] [] [] ⟨"t1", "get_flights", "a"⟩ "Not connected to an MCP server"
    rfl rfl
  ⟨h.1, h.2.1⟩

/-- C3 counterexample: a final model response with zero content blocks appends
no assistant message at all — the guard at processor.py line 86 skips the
append — so the conversation of this one-iteration run contains zero
assistant messages, refuting "exactly one assistant message on every
iteration". -/
theorem no_assistant_message_on_empty_final_response :
    MessageProcessor.process_query chanNone [.ok []] "hi" =
      .done ⟨[], [], []⟩ [⟨"user", .plain "hi"⟩] ∧
    countAssistant [⟨"user", .plain "hi"⟩] = 0 := by
  exact ⟨rfl, by decide⟩

/-- C3 amended: on every iteration whose model response contains at least one
content block (in particular every iteration with a tool call, and every
final iteration with non-empty content), exactly one assistant message is
appended, whose content is the full ordered list of blocks exactly as
received (text untrimmed); only a final iteration whose response has no
content blocks appends none. -/
theorem one_assistant_message_per_nonempty_iteration (channel : ToolChannel)
    (st : LoopState) (response : List ContentBlock) (h : response ≠ []) :
    ∃ tail, (loopStep channel st response).2.2 =
        st.2 ++ [⟨"assistant", .blocks response⟩] ++ tail ∧
      countAssistant (loopStep channel st response).2.2 =
        countAssistant st.2 + 1 := by
  rw [loopStep_eq]
  by_cases htc : toolUses response = []
  · refine ⟨[], ?_, ?_⟩
    · simp [htc, h]
    · simp [htc, h, countAssistant_append, countAssistant_assistant_singleton]
  · refine ⟨(toolUses response).map (toolMsg channel), ?_, ?_⟩
    · simp [htc, List.append_assoc]
    · simp [htc, countAssistant_append, countAssistant_toolMsgs,
        countAssistant_assistant_singleton, countAssistant_assistant_cons]

/-- Witness for the amended C3 at a concrete one-block response. -/
theorem one_assistant_message_witness :
    ∃ tail, (loopStep chanNone (⟨[], [], []⟩, [⟨"user", .plain "q"⟩])
        [.tool_use "t1" "f" "a"]).2.2 =
          [⟨"user", .plain "q"⟩] ++
            [⟨"assistant", .blocks [.tool_use "t1" "f" "a"]⟩] ++ tail ∧
      countAssistant (loopStep chanNone (⟨[], [], []⟩, [⟨"user", .plain "q"⟩])
          [.tool_use "t1" "f" "a"]).2.2 =
        countAssistant [⟨"user", .plain "q"⟩] + 1 :=
  one_assistant_message_per_nonempty_iteration chanNone
    (⟨[], [], []⟩, [⟨"user", .plain "q"⟩]) [.tool_use "t1" "f" "a"]
    (by decide)

/-- C4: the loop terminates exactly when a model response contains zero
tool_use blocks, with no iteration cap at this layer: (1) a script whose
responses all request at least one tool leaves the loop still running after
the whole script, for every script length; (2) a terminating run must have
consumed a response with zero tool_use blocks; (3) whenever the next response
has zero tool_use blocks the loop exits, returning the accumulated result. -/
theorem loop_terminates_iff_toolfree_response (channel : ToolChannel)
    (responses : List (Except String (List ContentBlock))) (st : LoopState) :
    ((∀ x ∈ responses, ∃ r, x = Except.ok r ∧ toolUses r ≠ []) →
      (processLoop channel responses st).isRunning = true) ∧
    (∀ result messages,
      processLoop channel responses st = .done result messages →
      ∃ pre r post, responses = pre ++ Except.ok r :: post ∧ toolUses r = []) ∧
    (∀ (response : List ContentBlock) rest, toolUses response = [] →
      ∃ result messages,
        processLoop channel (Except.ok response :: rest) st =
          .done result messages) := by
  refine ⟨?_, ?_, ?_⟩
  · induction responses generalizing st with
    | nil => intro _; rfl
    | cons x rest ih =>
        intro h
        obtain ⟨r, hx, hr⟩ := h x (List.mem_cons_self x rest)
        subst hx
        have hstep := loopStep_eq channel st r
        rw [if_neg hr] at hstep
        simp only [processLoop, hstep]
        exact ih _ fun y hy => h y (List.mem_cons_of_mem _ hy)
  · induction responses generalizing st with
    | nil => intro result messages h; simp [processLoop] at h
    | cons x rest ih =>
        intro result messages h
        cases x with
        | error e => simp [processLoop] at h
        | ok r =>
            by_cases hr : toolUses r = []
            · exact ⟨[], r, rest, rfl, hr⟩
            · have hstep := loopStep_eq channel st r
              rw [if_neg hr] at hstep
              simp only [processLoop, hstep] at h
              obtain ⟨pre, r1, post, hresp, hr1⟩ := ih _ _ _ h
              exact ⟨.ok r :: pre, r1, post, by simp [hresp], hr1⟩
  · intro response rest h
    have hstep := loopStep_eq channel st response
    rw [if_pos h] at hstep
    exact ⟨{ st.1 with text := st.1.text ++ trimmedTexts response },
      if response = [] then st.2
      else st.2 ++ [⟨"assistant", .blocks response⟩],
      by simp only [processLoop, hstep]⟩

/-- Witness for C4: an all-tool-requesting script leaves the loop running; a
script whose head has no tool_use block terminates. -/
theorem loop_termination_witness :
    (processLoop chanNone [Except.ok [ContentBlock.tool_use "t1" "f" "a"]]
        (⟨[], [], []⟩, [⟨"user", .plain "q"⟩])).isRunning = true ∧
    (∃ result messages,
      processLoop chanNone [Except.ok []]
        (⟨[], [], []⟩, [⟨"user", .plain "q"⟩]) = .done result messages) :=
  ⟨(loop_terminates_iff_toolfree_response chanNone
      [Except.ok [ContentBlock.tool_use "t1" "f" "a"]]
      (⟨[], [], []⟩, [⟨"user", .plain "q"⟩])).1
      (by
        intro x hx
        rw [List.mem_singleton] at hx
        exact ⟨[ContentBlock.tool_use "t1" "f" "a"], hx, by decide⟩),
   (loop_terminates_iff_toolfree_response chanNone []
      (⟨[], [], []⟩, [⟨"user", .plain "q"⟩])).2.2 [] [] rfl⟩

/-- C5 counterexample: with the channel unreachable (transport down, no
session after the reconnect attempt) a ConnectionError from call_tool is NOT
surfaced as a failure result of process_query: the run returns a success
result whose tool_results entry absorbed the ConnectionError message — the
opposite of "not absorbed inside the query-processing loop the way a
per-tool execution failure is". -/
theorem connectionError_absorbed_counterexample :
    (MCPClient.process_query envDown stDisconnected "find flights").2 =
      some (.success ⟨[], [⟨"t1", "search_flights", "src=JFK"⟩],
        [⟨"t1", "search_flights", "src=JFK",
          .error "Not connected to an MCP server"⟩]⟩) ∧
    (MCPClient.process_query envDown stDisconnected "find flights").2.map
        FacadeResult.status = some "success" := ⟨rfl, rfl⟩

/-- C5 amended: a ConnectionError raised by a Tool Channel call_tool during
tool execution is absorbed inside the query-processing loop exactly like a
per-tool execution failure, not surfaced as a failure result: call_tool with
no session raises the ConnectionError message, each pending call of the turn
yields a tool_results entry with status "error" carrying that message, and
the loop continues (the step is not terminal). -/
theorem connectionError_absorbed_in_loop (env : Env) (st : LoopState)
    (response : List ContentBlock) (name args : String)
    (h : toolUses response ≠ []) :
    ServerConnection.call_tool env false name args =
      .error "Not connected to an MCP server" ∧
    (loopStep (ServerConnection.call_tool env false) st response).1 = false ∧
    (loopStep (ServerConnection.call_tool env false) st
        response).2.1.tool_results =
      st.1.tool_results ++ (toolUses response).map
        (fun t => ⟨t.id, t.name, t.args,
          .error "Not connected to an MCP server"⟩) ∧
    ∀ t ∈ toolUses response,
      (resultEntry (ServerConnection.call_tool env false) t).status =
        "error" := by
  have hstep := loopStep_eq (ServerConnection.call_tool env false) st response
  rw [if_neg h] at hstep
  refine ⟨rfl, ?_, ?_, ?_⟩
  · rw [hstep]
  · rw [hstep]
    simp [resultEntry_no_session]
  · intro t ht
    rw [resultEntry_no_session]
    rfl

/-- Witness for the amended C5 at a concrete one-call turn. -/
theorem connectionError_absorbed_witness :
    ServerConnection.call_tool envDown false "search_flights" "src=JFK" =
      .error "Not connected to an MCP server" ∧
    (loopStep (ServerConnection.call_tool envDown false)
        (⟨[], [], []⟩, [⟨"user", .plain "q"⟩])
        [.tool_use "t1" "search_flights" "src=JFK"]).1 = false :=
  have h := connectionError_absorbed_in_loop envDown
    (⟨[], [], []⟩, [⟨"user", .plain "q"⟩])
    [.tool_use "t1" "search_flights" "src=JFK"]
    "search_flights" "src=JFK" (by decide)
  ⟨h.1, h.2.1⟩

/-- C6: the facade process_query never raises: whenever the processor raises
(here, the model call fails with message e), the facade catches the exception
and returns the error dict carrying the message, whose status field is
"error", instead of propagating.  In this embedding the facade codomain has
no exception branch, so returning a value is the only behaviour. -/
theorem facade_process_query_catches (env : Env) (st : ClientState)
    (query e : String)
    (h : MCPClient.processorOutcome env st query = .raised e) :
    (MCPClient.process_query env st query).2 = some (.failure e) ∧
    FacadeResult.status (.failure e) = "error" := by
  refine ⟨?_, rfl⟩
  simp [MCPClient.process_query, h]

/-- Witness for C6 at a concrete raising model call. -/
theorem facade_catches_witness :
    (MCPClient.process_query envGatewayDown stConnected "q").2 =
      some (.failure "rate limited") ∧
    FacadeResult.status (.failure "rate limited") = "error" :=
  facade_process_query_catches envGatewayDown stConnected "q" "rate limited"
    rfl

/-- C7 counterexample: with an unreachable transport the channel-level
connect_sse raises ConnectionError, but the facade-level connect catches
every exception and returns False — the facade connect operation does not
fail with ConnectionError. -/
theorem facade_connect_swallows_counterexample :
    MCPClient.connectBody envDown ⟨false, [], none⟩ (some "http://x") =
      (⟨false, [], some "http://x"⟩,
       .error ("Failed to connect to SSE server: " ++ "connection refused"),
       0) ∧
    MCPClient.connect envDown ⟨false, [], none⟩ (some "http://x") =
      (⟨false, [], some "http://x"⟩, false, 0) := ⟨rfl, rfl⟩

/-- C7 amended: when the channel cannot be opened or initialized, the
channel-level connect_sse raises ConnectionError ("Failed to connect to SSE
server: " ++ e) with the session cleared, while the facade-level connect
catches the exception and returns False; the facade is left disconnected
(session absent, catalog not repopulated), so a later call may retry. -/
theorem facade_connect_failure_state (env : Env) (st : ClientState)
    (url : Option String) (e : String)
    (h : env.transport url = .error e) :
    ServerConnection.connect_sse env url =
      (false, .error ("Failed to connect to SSE server: " ++ e)) ∧
    MCPClient.connect env st url =
      ({ st with connection_url := url, session := false }, false, 0) := by
  constructor
  · simp [ServerConnection.connect_sse, h]
  · simp [MCPClient.connect, MCPClient.connectBody,
      ServerConnection.connect_sse, h]

/-- Witness for the amended C7 at a concrete refused transport. -/
theorem facade_connect_failure_witness :
    ServerConnection.connect_sse envDown (some "http://x") =
      (false,
       .error ("Failed to connect to SSE server: " ++ "connection refused")) ∧
    MCPClient.connect envDown ⟨false, [], none⟩ (some "http://x") =
      (⟨false, [], some "http://x"⟩, false, 0) :=
  facade_connect_failure_state envDown ⟨false, [], none⟩ (some "http://x")
    "connection refused" rfl

/-- C8 counterexample: on a successful /chat request the value of "data" is
not the QueryResult itself but the facade wrapper dict: its keys are
status/response, not the QueryResult keys text/tool_calls/tool_results, so
the response differs from the body the claim requires. -/
theorem chat_data_not_queryresult :
    process_chat envChat (some stChat) ⟨true, [("prompt", "hello")]⟩ =
      some (some stChat, 200, .obj [("status", .str "success"),
        ("data", .obj [("status", .str "success"),
          ("response", QueryResult.toJson ⟨[], [], []⟩)])]) ∧
    ((process_chat envChat (some stChat) ⟨true, [("prompt", "hello")]⟩).map
        fun out => (out.2.2.field "data").map Json.topKeys) =
      some (some ["status", "response"]) ∧
    ((specChatSuccessBody ⟨[], [], []⟩).field "data").map Json.topKeys =
      some ["text", "tool_calls", "tool_results"] ∧
    process_chat envChat (some stChat) ⟨true, [("prompt", "hello")]⟩ ≠
      some (some stChat, 200, specChatSuccessBody ⟨[], [], []⟩) := by
  refine ⟨rfl, rfl, rfl, fun hcontra => ?_⟩
  have h1 := congrArg
    (fun o => (o.map fun out => (out.2.2.field "data").map Json.topKeys))
    hcontra
  exact absurd h1 (by decide)

/-- C8 amended: for every /chat request carrying a prompt, when the singleton
client is available and query processing succeeds with QueryResult r, the
route responds 200 with body status "success" whose "data" value is the
facade wrapper dict — status "success" with the QueryResult under
"response" — rather than the bare QueryResult. -/
theorem chat_success_wraps_facade_dict (env : Env) (g g1 : Option ClientState)
    (inst st1 : ClientState) (req : ChatRequest) (message : String)
    (r : QueryResult)
    (hjson : req.is_json = true)
    (hprompt : req.body.lookup "prompt" = some message)
    (hclient : get_client_instance env g env.sse_endpoint = .ok (g1, inst))
    (hq : MCPClient.process_query env inst message = (st1, some (.success r))) :
    process_chat env g req =
      some (g1.map fun _ => st1, 200,
        .obj [("status", .str "success"),
          ("data", .obj [("status", .str "success"),
            ("response", r.toJson)])]) := by
  simp [process_chat, validate_json_prompt, hjson, hprompt, hclient, hq,
    FacadeResult.toJson]

/-- Witness for the amended C8 at a concrete successful run. -/
theorem chat_success_witness :
    process_chat envChat (some stChat) ⟨true, [("prompt", "hello")]⟩ =
      some ((some stChat).map fun _ => stChat, 200,
        .obj [("status", .str "success"),
          ("data", .obj [("status", .str "success"),
            ("response", QueryResult.toJson ⟨[], [], []⟩)])]) :=
  chat_success_wraps_facade_dict envChat (some stChat) (some stChat) stChat
    stChat ⟨true, [("prompt", "hello")]⟩ "hello" ⟨[], [], []⟩ rfl rfl rfl rfl

/-- C9: when a session exists, the facade catalog accessor returns the cached
catalog without touching the channel: the call leaves the state unchanged and
performs zero remote list_tools fetches, and a second call without an
intervening reconnect returns the identical catalog, with zero fetches over
both calls. -/
theorem list_tools_idempotent_cached (env : Env) (st : ClientState)
    (h : st.session = true) :
    MCPClient.get_available_tools env st =
      (st, .success st.available_tools, 0) ∧
    (MCPClient.get_available_tools env
        (MCPClient.get_available_tools env st).1).2.1 =
      (MCPClient.get_available_tools env st).2.1 ∧
    (MCPClient.get_available_tools env st).2.2 +
      (MCPClient.get_available_tools env
        (MCPClient.get_available_tools env st).1).2.2 = 0 := by
  have h1 : MCPClient.get_available_tools env st =
      (st, .success st.available_tools, 0) := by
    simp [MCPClient.get_available_tools, h]
  refine ⟨h1, ?_, ?_⟩ <;> simp [h1, MCPClient.get_available_tools, h]

/-- Witness for C9 at a concrete connected state with a one-tool catalog. -/
theorem list_tools_idempotent_witness :
    MCPClient.get_available_tools envChat stCatalog =
      (stCatalog, .success stCatalog.available_tools, 0) ∧
    (MCPClient.get_available_tools envChat
        (MCPClient.get_available_tools envChat stCatalog).1).2.1 =
      (MCPClient.get_available_tools envChat stCatalog).2.1 :=
  have h := list_tools_idempotent_cached envChat stCatalog rfl
  ⟨h.1, h.2.1⟩

/-- C10: once the singleton exists, every later get_client_instance call
returns that same instance unchanged — with no condition on the instance, so
also when its initial connection attempt failed and it holds no session; the
missing-URL ValueError occurs exactly on a creation call (no instance) with
a falsy URL; and reconnection is instead retried lazily by process_query and
get_available_tools whenever no session is present, both attempting connect
with the stored connection_url. -/
theorem singleton_stable_lazy_reconnect (env : Env) (g : Option ClientState)
    (inst : ClientState) (url : Option String) (st : ClientState)
    (q : String) :
    (g = some inst → get_client_instance env g url = .ok (some inst, inst)) ∧
    (get_client_instance env g url =
        .error "Connection URL is required for initial client creation" ↔
      g = none ∧ falsyUrl url = true) ∧
    (st.session = false →
      MCPClient.ensureConnected env st =
        (MCPClient.connect env st st.connection_url).1 ∧
      (MCPClient.process_query env st q).1 =
        (MCPClient.connect env st st.connection_url).1 ∧
      (MCPClient.get_available_tools env st).1 =
        (MCPClient.connect env st st.connection_url).1) := by
  refine ⟨?_, ?_, ?_⟩
  · rintro rfl; rfl
  · cases g with
    | some inst2 => simp [get_client_instance]
    | none =>
        by_cases hu : falsyUrl url = true
        · simp [get_client_instance, hu]
        · simp [get_client_instance, hu]
  · intro h
    refine ⟨?_, ?_, ?_⟩
    · simp [MCPClient.ensureConnected, h]
    · cases ho : MCPClient.processorOutcome env st q <;>
        simp [MCPClient.process_query, MCPClient.ensureConnected, h, ho]
    · simp [MCPClient.get_available_tools, h]

/-- Witness for C10: a stored instance with no session is returned unchanged
and without error; with no instance and no URL the ValueError fires; with no
session the catalog accessor goes through connect. -/
theorem singleton_stable_witness :
    get_client_instance envDown (some stDisconnected) none =
      .ok (some stDisconnected, stDisconnected) ∧
    get_client_instance envDown none none =
      .error "Connection URL is required for initial client creation" ∧
    MCPClient.ensureConnected envDown stDisconnected =
      (MCPClient.connect envDown stDisconnected
        stDisconnected.connection_url).1 :=
  ⟨(singleton_stable_lazy_reconnect envDown (some stDisconnected)
      stDisconnected none stDisconnected "q").1 rfl,
   (singleton_stable_lazy_reconnect envDown none stDisconnected none
      stDisconnected "q").2.1.mpr ⟨rfl, rfl⟩,
   ((singleton_stable_lazy_reconnect envDown (some stDisconnected)
      stDisconnected none stDisconnected "q").2.2 rfl).1⟩

end FlightMCP
